import Mathlib

/-!
Verification of the DDD/CQRS request-processing skeleton
(`infrastructures/ddd/python`): shallow embedding of the domain model,
mapper, repositories, event bus and the middleware pipeline, together with
theorems settling the specification claims about them.

Conventions of the embedding:
* Python strings are Lean `String`; `datetime` values are opaque `Nat`
  instants supplied explicitly (the source reads `datetime.utcnow()` and
  `uuid.uuid4()` inside constructors; here the generated id `p_gid` and the
  clock reading `p_now` are explicit parameters).
* Python exceptions become `Except PyExc`; `ValueError`, `PermissionError`
  and the typed `ExampleServiceException` are the constructors of `PyExc`.
* The `async` methods contain no real concurrency (each request is one
  sequential task), so they are embedded as pure functions; observable
  effects (repository calls, begin/commit/rollback, synchronous event
  delivery by `InMemoryEventBus.publish_async`) are recorded in an `Action`
  trace whose list order is the execution order.
-/

deriving instance DecidableEq for Except

namespace OddlyDDD

/-- Truthiness of a Python string: `not s` is true exactly when `s` is empty. -/
def pyTruthy (s : String) : Bool := !s.data.isEmpty

/-- Python `str.strip()`: remove leading and trailing whitespace. -/
def pyStrip (s : String) : String :=
  String.mk (((s.data.dropWhile Char.isWhitespace).reverse.dropWhile Char.isWhitespace).reverse)

/-- Uppercase one character, as Python `str.upper()` does for ASCII. -/
def charUpper (c : Char) : Char :=
  if c.isLower then Char.ofNat (c.toNat - 32) else c

/-- Python `str.upper()` (ASCII fragment, which covers every error code used). -/
def pyUpper (s : String) : String := String.mk (s.data.map charUpper)

/-- Helper for the Python `in` operator on strings: does the second list start
with the first? -/
def startsWithList : List Char → List Char → Bool
  | _, [] => true
  | [], _ :: _ => false
  | c :: cs, d :: ds => c = d && startsWithList cs ds

/-- Python `needle in hay` for strings, on the underlying character lists. -/
def hasInfixList (needle : List Char) : List Char → Bool
  | [] => startsWithList [] needle
  | c :: cs => startsWithList (c :: cs) needle || hasInfixList needle cs

/-- Python `sub in s` on `String`s. -/
def strContains (s sub : String) : Bool := hasInfixList sub.data s.data

/-- Python `not s or not s.strip()`: the blank-string test used by
`ExampleModel.validate` and `update_details`. -/
def isBlank (s : String) : Bool := !pyTruthy s || !pyTruthy (pyStrip s)

/-- Observable actions of one request, in execution order: the Unit-of-Work
calls made by `UnitOfWorkMiddleware`, the command-repository calls made by
`ExampleService`, and the synchronous delivery of a domain event to the
subscribers of a topic performed by `InMemoryEventBus.publish_async` at the
moment the service calls it. -/
inductive Action where
  | beginTx : Action
  | commitTx : Action
  | rollbackTx : Action
  | repoCall : String → Action
  | deliverEvent : String → Action
deriving DecidableEq

/-- Error codes of `ExampleErrorCode` (an `Enum` in
`application/errors/example_service_exception.py`). -/
inductive ExampleErrorCode where
  | NOT_FOUND : ExampleErrorCode
  | VALIDATION_FAILED : ExampleErrorCode
  | CONFLICT : ExampleErrorCode
  | UNAUTHORIZED : ExampleErrorCode
  | ALREADY_EXISTS : ExampleErrorCode
deriving DecidableEq

/-- The `value` string of each `ExampleErrorCode` member. -/
def ExampleErrorCode.value : ExampleErrorCode → String
  | .NOT_FOUND => "not_found"
  | .VALIDATION_FAILED => "validation_failed"
  | .CONFLICT => "conflict"
  | .UNAUTHORIZED => "unauthorized"
  | .ALREADY_EXISTS => "already_exists"

/-- The Python exceptions that flow through this code: untyped `ValueError`
(raised by model validation and by the command repository), `PermissionError`
(raised by `validate_ownership`), and the typed `ExampleServiceException`
carrying an `ExampleErrorCode` (the only type the error-handling middleware
recognizes as a `ServiceException`). -/
inductive PyExc where
  | valueError : String → PyExc
  | permissionError : String → PyExc
  | serviceExc : ExampleErrorCode → PyExc
deriving DecidableEq

/-- Business model object `ExampleModel` (`domain/models/example_model.py`):
fields of `BaseModel` (`_id`, `_created_at`, `_updated_at`) plus `_name`,
`_description`, `_owner_id`, `_is_active`. -/
structure ExampleModel where
  id : String
  created_at : Nat
  updated_at : Nat
  name : String
  description : String
  owner_id : String
  is_active : Bool
deriving DecidableEq

/-- `ExampleModel.validate` plus the `BaseModel.validate` it first calls:
empty id, blank or over-long name, and blank owner each raise `ValueError`
with the source's message, checked in the source's order. -/
def ExampleModel.validate (m : ExampleModel) : Except PyExc Unit :=
  if !pyTruthy m.id then .error (.valueError "Model ID cannot be empty")
  else if isBlank m.name then .error (.valueError "Example name cannot be empty")
  else if m.name.length > 100 then .error (.valueError "Example name cannot exceed 100 characters")
  else if isBlank m.owner_id then .error (.valueError "Example must have an owner")
  else .ok ()

/-- Factory `ExampleModel.create`: builds the model (with generated id
`p_gid` and clock reading `p_now` standing for `uuid.uuid4()` and
`datetime.utcnow()` of `BaseModel.__init__`), validates it, and returns it;
a validation failure propagates as the raised `ValueError`. -/
def ExampleModel.create (p_gid : String) (p_now : Nat)
    (p_name p_description p_owner_id : String) : Except PyExc ExampleModel :=
  let m : ExampleModel :=
    { id := p_gid, created_at := p_now, updated_at := p_now,
      name := p_name, description := p_description,
      owner_id := p_owner_id, is_active := true }
  match m.validate with
  | .ok _ => .ok m
  | .error e => .error e

/-- Factory `ExampleModel.hydrate`: sets every field from the persistence
layer and returns the model without calling `validate`. -/
def ExampleModel.hydrate (p_id p_name p_description p_owner_id : String)
    (p_is_active : Bool) (p_created_at p_updated_at : Nat) : ExampleModel :=
  { id := p_id, created_at := p_created_at, updated_at := p_updated_at,
    name := p_name, description := p_description,
    owner_id := p_owner_id, is_active := p_is_active }

/-- `ExampleModel.update_details`: rejects a blank name, then mutates name,
description and `updated_at` and re-validates. The embedding returns the
mutated model. -/
def ExampleModel.update_details (m : ExampleModel) (p_name p_description : String)
    (p_now : Nat) : Except PyExc ExampleModel :=
  if isBlank p_name then .error (.valueError "Name cannot be empty")
  else
    let m' : ExampleModel :=
      { m with name := p_name, description := p_description, updated_at := p_now }
    match m'.validate with
    | .ok _ => .ok m'
    | .error e => .error e

/-- `ExampleModel.validate_ownership`: raises `PermissionError` when the
given user is not the stored owner. -/
def ExampleModel.validate_ownership (m : ExampleModel) (p_user_id : String) :
    Except PyExc Unit :=
  if m.owner_id ≠ p_user_id then .error (.permissionError "User does not own this resource")
  else .ok ()

/-- Write projection `ExampleWriteEntity`
(`infrastructure/persistence/write/example_write_entity.py`): `BaseEntity`
fields (`id`, `created_at`, `updated_at`), the `BaseWriteEntity` optimistic
concurrency `version` counter, and the example fields. -/
structure ExampleWriteEntity where
  id : String
  created_at : Nat
  updated_at : Nat
  version : Nat
  name : String
  description : String
  owner_id : String
  is_active : Bool
deriving DecidableEq

/-- Read projection `ExampleReadEntity`
(`infrastructure/persistence/read/example_read_entity.py`). -/
structure ExampleReadEntity where
  id : String
  created_at : Nat
  updated_at : Nat
  name : String
  description : String
  owner_id : String
  owner_name : String
  is_active : Bool
  display_name : String
  status_text : String
deriving DecidableEq

/-- Request DTO `CreateExampleRequest`. -/
structure CreateExampleRequest where
  name : String
  description : String
deriving DecidableEq

/-- Edge validation `CreateExampleRequest.validate`; success of this check is
what the spec calls a well-formed create request. -/
def CreateExampleRequest.validate (r : CreateExampleRequest) : Except PyExc Unit :=
  if isBlank r.name then .error (.valueError "Name is required")
  else if r.name.length > 100 then .error (.valueError "Name cannot exceed 100 characters")
  else if r.description.length > 500 then .error (.valueError "Description cannot exceed 500 characters")
  else .ok ()

/-- Request DTO `UpdateExampleRequest`. -/
structure UpdateExampleRequest where
  name : String
  description : String
deriving DecidableEq

/-- Edge validation `UpdateExampleRequest.validate`. -/
def UpdateExampleRequest.validate (r : UpdateExampleRequest) : Except PyExc Unit :=
  if isBlank r.name then .error (.valueError "Name is required")
  else if r.name.length > 100 then .error (.valueError "Name cannot exceed 100 characters")
  else if r.description.length > 500 then .error (.valueError "Description cannot exceed 500 characters")
  else .ok ()

/-- `ExampleMapper.to_model_from_request`: calls the create factory with the
request's name and description and an empty owner id (the source passes
`p_owner_id=""` with the comment that the controller sets it later). -/
def ExampleMapper.to_model_from_request (p_gid : String) (p_now : Nat)
    (p_dto : CreateExampleRequest) : Except PyExc ExampleModel :=
  ExampleModel.create p_gid p_now p_dto.name p_dto.description ""

/-- `ExampleMapper.to_write_entity`: copies id, name, description, owner_id,
is_active, created_at and updated_at from the model onto a freshly
constructed entity. The `version` field is never assigned by the mapper, so
it keeps the `BaseWriteEntity.__init__` default `0`. -/
def ExampleMapper.to_write_entity (p_model : ExampleModel) : ExampleWriteEntity :=
  { id := p_model.id, created_at := p_model.created_at, updated_at := p_model.updated_at,
    version := 0, name := p_model.name, description := p_model.description,
    owner_id := p_model.owner_id, is_active := p_model.is_active }

/-- `ExampleMapper.to_model_from_write_entity`: hydrates a model from the
entity's fields. -/
def ExampleMapper.to_model_from_write_entity (p_entity : ExampleWriteEntity) : ExampleModel :=
  ExampleModel.hydrate p_entity.id p_entity.name p_entity.description
    p_entity.owner_id p_entity.is_active p_entity.created_at p_entity.updated_at

/-- `ExampleMapper.update_model_from_request`: delegates to
`ExampleModel.update_details` with the request's name and description. -/
def ExampleMapper.update_model_from_request (p_model : ExampleModel)
    (p_request : UpdateExampleRequest) (p_now : Nat) : Except PyExc ExampleModel :=
  p_model.update_details p_request.name p_request.description p_now

/-- The in-memory store of `ExampleCommandRepository`
(`self._in_memory_store: dict[str, ExampleWriteEntity]`), embedded as an
association list keyed by id in insertion order. -/
abbrev WriteStore := List (String × ExampleWriteEntity)

/-- Dictionary lookup `store.get(k)` / `store[k]`. -/
def storeGet (s : WriteStore) (k : String) : Option ExampleWriteEntity :=
  match s with
  | [] => none
  | (k', v) :: rest => if k' = k then some v else storeGet rest k

/-- Dictionary membership `k in store`. -/
def storeContains (s : WriteStore) (k : String) : Bool := (storeGet s k).isSome

/-- Dictionary assignment `store[k] = v`: replaces the entry if the key is
present, otherwise appends it. -/
def storeSet (s : WriteStore) (k : String) (v : ExampleWriteEntity) : WriteStore :=
  match s with
  | [] => [(k, v)]
  | (k', v') :: rest => if k' = k then (k, v) :: rest else (k', v') :: storeSet rest k v

/-- Dictionary deletion `del store[k]`. -/
def storeErase (s : WriteStore) (k : String) : WriteStore :=
  match s with
  | [] => []
  | (k', v') :: rest => if k' = k then rest else (k', v') :: storeErase rest k

/-- `ExampleCommandRepository.save_async`: maps the model to a write entity
and stores it under the entity's id, returning the id; the new store is
returned alongside. -/
def ExampleCommandRepository.save_async (s : WriteStore) (p_model : ExampleModel) :
    String × WriteStore :=
  let entity := ExampleMapper.to_write_entity p_model
  (entity.id, storeSet s entity.id entity)

/-- `ExampleCommandRepository.update_async`: maps the model to a write entity
and overwrites the stored entry; raises `ValueError` when the id is absent. -/
def ExampleCommandRepository.update_async (s : WriteStore) (p_model : ExampleModel) :
    Except PyExc WriteStore :=
  let entity := ExampleMapper.to_write_entity p_model
  if storeContains s entity.id then .ok (storeSet s entity.id entity)
  else .error (.valueError ("Example " ++ entity.id ++ " not found"))

/-- `ExampleCommandRepository.delete_async`: removes the entry; raises
`ValueError` when the id is absent. -/
def ExampleCommandRepository.delete_async (s : WriteStore) (p_id : String) :
    Except PyExc WriteStore :=
  if storeContains s p_id then .ok (storeErase s p_id)
  else .error (.valueError ("Example " ++ p_id ++ " not found"))

/-- `ExampleCommandRepository.exists_async`: dictionary membership test. -/
def ExampleCommandRepository.exists_async (s : WriteStore) (p_id : String) : Bool :=
  storeContains s p_id

/-- `ExampleCommandRepository.find_by_id_for_command_async`: raises
`ValueError` when the id is absent (it never returns a `None` value),
otherwise maps the stored entity back to a model. -/
def ExampleCommandRepository.find_by_id_for_command_async (s : WriteStore) (p_id : String) :
    Except PyExc ExampleModel :=
  match storeGet s p_id with
  | none => .error (.valueError ("Example " ++ p_id ++ " not found"))
  | some entity => .ok (ExampleMapper.to_model_from_write_entity entity)

/-- `ExampleQueryRepository.list_by_filter_async`: Python
`list(store.values())[p_skip : p_skip + p_take]`, which for the non-negative
`skip`/`take` of the claim is drop-then-take on the values in insertion
order. -/
def ExampleQueryRepository.list_by_filter_async (store : List ExampleReadEntity)
    (p_skip p_take : Nat) : List ExampleReadEntity :=
  (store.drop p_skip).take p_take

/-- `ExampleQueryRepository.find_by_id_async`: `store.get(p_id)`, embedded on
a list of read entities keyed by their `id` field. -/
def ExampleQueryRepository.find_by_id_async (store : List ExampleReadEntity)
    (p_id : String) : Option ExampleReadEntity :=
  store.find? (fun e => e.id = p_id)

/-- HTTP request as seen by the middleware: only the method is consulted. -/
structure HttpRequest where
  method : String
deriving DecidableEq

/-- HTTP response as seen by the middleware: only the status code is
consulted. -/
structure HttpResponse where
  status_code : Nat
deriving DecidableEq

/-- A pipeline stage's continuation `p_call_next`: the rest of the pipeline,
returning its action trace and either a response or a raised exception. -/
abbrev Handler := HttpRequest → List Action × Except PyExc HttpResponse

/-- The mutating-method test of `UnitOfWorkMiddleware.__call__`:
`p_request.method in ["POST", "PUT", "PATCH", "DELETE"]`. -/
def isMutating (r : HttpRequest) : Bool :=
  ["POST", "PUT", "PATCH", "DELETE"].contains r.method

/-- `UnitOfWorkMiddleware.__call__`: non-mutating requests bypass the
transaction entirely; for mutating requests it begins a transaction, runs
the rest of the pipeline, commits when the response status is below 400,
rolls back otherwise, and on any exception rolls back and re-raises. The
trace prepends `beginTx` (executed before the handler) and appends the
commit or rollback (executed after it). -/
def UnitOfWorkMiddleware.call (p_call_next : Handler) (p_request : HttpRequest) :
    List Action × Except PyExc HttpResponse :=
  if !isMutating p_request then p_call_next p_request
  else
    let (tr, res) := p_call_next p_request
    match res with
    | .error e => (Action.beginTx :: (tr ++ [Action.rollbackTx]), .error e)
    | .ok response =>
      if response.status_code < 400 then
        (Action.beginTx :: (tr ++ [Action.commitTx]), .ok response)
      else
        (Action.beginTx :: (tr ++ [Action.rollbackTx]), .ok response)

/-- `OwnershipMiddleware.__call__` as executed: GET requests skip the check
and go to the next stage; for every other request the identity-extraction
and verification statements are commented out in the source, so the request
likewise goes straight to the next stage and no forbidden outcome is ever
produced. -/
def OwnershipMiddleware.call (p_call_next : Handler) (p_request : HttpRequest) :
    List Action × Except PyExc HttpResponse :=
  if p_request.method = "GET" then p_call_next p_request
  else p_call_next p_request

/-- Error response DTO as far as the claims consult it: the `code` field of
`ErrorResponseDto` (message, timestamp, path, request id and details carry
no information used by any claim). -/
structure ErrorResponseDto where
  code : String
deriving DecidableEq

/-- Outcome of the outermost error-normalization stage: either the inner
response or a normalized error DTO. -/
inductive PipelineResult where
  | success : HttpResponse → PipelineResult
  | failure : ErrorResponseDto → PipelineResult
deriving DecidableEq

/-- `ErrorHandlingMiddleware._map_error_code_to_status`: uppercases the code
string and tests substrings in the source's order. -/
def ErrorHandlingMiddleware.map_error_code_to_status (p_code : String) : Nat :=
  let code_str := pyUpper p_code
  if strContains code_str "NOT_FOUND" then 404
  else if strContains code_str "CONFLICT" || strContains code_str "ALREADY_EXISTS" then 409
  else if strContains code_str "VALIDATION" then 400
  else if strContains code_str "UNAUTHORIZED" then 401
  else if strContains code_str "FORBIDDEN" then 403
  else 500

/-- `ErrorHandlingMiddleware.__call__`: a `ServiceException` is converted to
an `ErrorResponseDto` carrying its code's `value`; every other exception is
replaced by the generic `INTERNAL_ERROR` DTO; a normal response passes
through. -/
def ErrorHandlingMiddleware.call (p_call_next : Handler) (p_request : HttpRequest) :
    List Action × PipelineResult :=
  let (tr, res) := p_call_next p_request
  match res with
  | .ok response => (tr, .success response)
  | .error (.serviceExc code) => (tr, .failure { code := code.value })
  | .error (.valueError _) => (tr, .failure { code := "INTERNAL_ERROR" })
  | .error (.permissionError _) => (tr, .failure { code := "INTERNAL_ERROR" })

/-- `ExampleService.create_example_async`: maps the request to a model
(which raises inside `ExampleModel.create` when validation fails), sets the
owner by direct field assignment, saves through the command repository and
publishes `example.created` (delivered synchronously by the in-memory bus). -/
def ExampleService.create_example_async (s : WriteStore) (p_request : CreateExampleRequest)
    (p_user_id p_correlation_id : String) (p_gid : String) (p_now : Nat) :
    List Action × Except PyExc (String × WriteStore) :=
  match ExampleMapper.to_model_from_request p_gid p_now p_request with
  | .error e => ([], .error e)
  | .ok model =>
    let model' := { model with owner_id := p_user_id }
    let (example_id, s') := ExampleCommandRepository.save_async s model'
    ([Action.repoCall "save", Action.deliverEvent "example.created"],
      .ok (example_id, s'))

/-- `ExampleService.update_example_async`: loads the model (the repository
raises `ValueError` when absent, so the service's `if model is None` branch
that would raise the typed NOT_FOUND exception is unreachable), converts an
ownership `PermissionError` into the typed UNAUTHORIZED exception, updates
the model, persists it and publishes `example.updated`. -/
def ExampleService.update_example_async (s : WriteStore) (p_id : String)
    (p_request : UpdateExampleRequest) (p_user_id : String) (p_now : Nat) :
    List Action × Except PyExc WriteStore :=
  match ExampleCommandRepository.find_by_id_for_command_async s p_id with
  | .error e => ([Action.repoCall "find"], .error e)
  | .ok model =>
    match model.validate_ownership p_user_id with
    | .error _ => ([Action.repoCall "find"], .error (.serviceExc .UNAUTHORIZED))
    | .ok _ =>
      match ExampleMapper.update_model_from_request model p_request p_now with
      | .error e => ([Action.repoCall "find"], .error e)
      | .ok model' =>
        match ExampleCommandRepository.update_async s model' with
        | .error e => ([Action.repoCall "find", Action.repoCall "update"], .error e)
        | .ok s' =>
          ([Action.repoCall "find", Action.repoCall "update",
            Action.deliverEvent "example.updated"], .ok s')

/-- Terminal pipeline stage for the update use case: runs the service and
turns its successful return into a 200 response, letting exceptions
propagate. -/
def updateHandler (s : WriteStore) (p_id : String) (p_request : UpdateExampleRequest)
    (p_user_id : String) (p_now : Nat) : Handler :=
  fun _ =>
    let (tr, res) := ExampleService.update_example_async s p_id p_request p_user_id p_now
    (tr, res.map (fun _ => { status_code := 200 }))

/-- Composition of the pipeline stages relevant to the claims, in the
source's order: error normalization outermost, then transactional scoping,
then the update use case handler. -/
def pipelineUpdate (s : WriteStore) (p_id : String) (p_request : UpdateExampleRequest)
    (p_user_id : String) (p_now : Nat) (r : HttpRequest) : List Action × PipelineResult :=
  ErrorHandlingMiddleware.call
    (fun rq => UnitOfWorkMiddleware.call (updateHandler s p_id p_request p_user_id p_now) rq) r

/-- Does an action deliver a domain event to subscribers? -/
def Action.isDeliver : Action → Bool
  | .deliverEvent _ => true
  | _ => false

/-- The claim's publication discipline on a trace: every event delivery
happens strictly after some commit. Computed with a fold that tracks whether
a commit has already occurred. -/
def deliveriesAfterCommitOnly (tr : List Action) : Bool :=
  (tr.foldl
    (fun st a =>
      match a with
      | Action.commitTx => (true, st.2)
      | Action.deliverEvent _ => (st.1, st.2 && st.1)
      | _ => st)
    (false, true)).2

/-- Sample write entity stored under id `e1`, owned by `u1`. -/
def entE1 : ExampleWriteEntity :=
  { id := "e1", created_at := 0, updated_at := 0, version := 0,
    name := "Widget", description := "d", owner_id := "u1", is_active := true }

/-- Store holding exactly `entE1`. -/
def storeE1 : WriteStore := [("e1", entE1)]

/-- Sample update request. -/
def updREQ : UpdateExampleRequest := { name := "Widget2", description := "d2" }

/-- Sample well-formed create request. -/
def widgetREQ : CreateExampleRequest := { name := "Widget", description := "A widget" }

/-- Sample mutating request. -/
def reqPUT : HttpRequest := { method := "PUT" }

/-- Sample mutating request for create. -/
def reqPOST : HttpRequest := { method := "POST" }

/-- Action trace of the full transactional update of `e1` by its owner. -/
def c1trace : List Action :=
  (UnitOfWorkMiddleware.call (updateHandler storeE1 "e1" updREQ "u1" 5) reqPUT).1

/-- Entity `e1` stored with version 5. -/
def entV5 : ExampleWriteEntity := { entE1 with version := 5 }

/-- Store holding `e1` at version 5. -/
def storeV5 : WriteStore := [("e1", entV5)]

/-- Model hydrated from the version-5 entity. -/
def m5 : ExampleModel := ExampleMapper.to_model_from_write_entity entV5

/-- Model whose id `missing` is absent from the empty store. -/
def mMissing : ExampleModel :=
  ExampleMapper.to_model_from_write_entity { entE1 with id := "missing" }

/-- Concrete model as built by a successful `ExampleModel.create`. -/
def mA : ExampleModel :=
  { id := "g1", created_at := 0, updated_at := 0, name := "Widget",
    description := "d", owner_id := "u1", is_active := true }

/-- Concrete model as mutated by a successful `update_details` on `mA`. -/
def mB : ExampleModel := { mA with name := "W2", description := "d2", updated_at := 1 }

/-- Sample read entities and store for the pagination witness. -/
def rA : ExampleReadEntity :=
  { id := "r1", created_at := 0, updated_at := 0, name := "A", description := "",
    owner_id := "u", owner_name := "", is_active := true,
    display_name := "A", status_text := "Active" }

/-- Second sample read entity. -/
def rB : ExampleReadEntity := { rA with id := "r2", name := "B" }

/-- Third sample read entity. -/
def rC : ExampleReadEntity := { rA with id := "r3", name := "C" }

/-- Read store with three entities in insertion order. -/
def readStore3 : List ExampleReadEntity := [rA, rB, rC]

/-- Looking a key up right after storing under it yields the stored value. -/
theorem storeGet_storeSet_self (s : WriteStore) (k : String) (v : ExampleWriteEntity) :
    storeGet (storeSet s k v) k = some v := by
  induction s with
  | nil => simp [storeSet, storeGet]
  | cons hd tl ih =>
    obtain ⟨k', v'⟩ := hd
    by_cases h : k' = k
    · simp [storeSet, storeGet, h]
    · simp [storeSet, storeGet, h, ih]

/-- C1, counterexample: in the transactional update of `e1` by its owner the
in-memory bus delivers `example.updated` to subscribers inside the handler,
strictly before the middleware's commit, so events are not published only
after the enclosing transaction commits. -/
theorem c1_events_before_commit_cex :
    c1trace = [Action.beginTx, Action.repoCall "find", Action.repoCall "update",
      Action.deliverEvent "example.updated", Action.commitTx] ∧
    deliveriesAfterCommitOnly c1trace = false := by
  exact ⟨by decide, by decide⟩

/-- C1, amended: events the service publishes are delivered synchronously
during the handler, after begin and before the middleware's commit; on an
exception the middleware rolls back, but deliveries already made inside the
handler trace remain — they are not discarded. -/
theorem c1_delivery_inside_transaction (h : Handler) (r : HttpRequest) (tr : List Action)
    (hm : isMutating r = true) :
    (∀ resp : HttpResponse, h r = (tr, .ok resp) → resp.status_code < 400 →
      UnitOfWorkMiddleware.call h r =
        (Action.beginTx :: (tr ++ [Action.commitTx]), .ok resp)) ∧
    (∀ e : PyExc, h r = (tr, .error e) →
      UnitOfWorkMiddleware.call h r =
        (Action.beginTx :: (tr ++ [Action.rollbackTx]), .error e)) := by
  constructor
  · intro resp hh hs
    simp [UnitOfWorkMiddleware.call, hm, hh, hs]
  · intro e hh
    simp [UnitOfWorkMiddleware.call, hm, hh]

/-- C1, witness for the amended theorem: the concrete owner update of `e1`
commits with the delivery inside the handler segment of the trace. -/
theorem c1_delivery_inside_transaction_witness :
    UnitOfWorkMiddleware.call (updateHandler storeE1 "e1" updREQ "u1" 5) reqPUT =
      (Action.beginTx :: ([Action.repoCall "find", Action.repoCall "update",
        Action.deliverEvent "example.updated"] ++ [Action.commitTx]),
       .ok { status_code := 200 }) :=
  (c1_delivery_inside_transaction (updateHandler storeE1 "e1" updREQ "u1" 5) reqPUT
      [Action.repoCall "find", Action.repoCall "update",
        Action.deliverEvent "example.updated"] (by decide)).1
    { status_code := 200 } (by decide) (by decide)

/-- C2: when the inner handler raises inside an active transaction of a
mutating request, the middleware appends exactly one rollback after the
handler's actions and re-raises the same exception, and the only action
after the point of the throw is that rollback — in particular no commit
follows the exception. -/
theorem c2_exception_rolls_back (h : Handler) (r : HttpRequest) (tr : List Action) (e : PyExc)
    (hm : isMutating r = true) (hh : h r = (tr, .error e)) :
    UnitOfWorkMiddleware.call h r =
      (Action.beginTx :: (tr ++ [Action.rollbackTx]), .error e) ∧
    ((UnitOfWorkMiddleware.call h r).1).drop (tr.length + 1) = [Action.rollbackTx] ∧
    Action.commitTx ∉ ((UnitOfWorkMiddleware.call h r).1).drop (tr.length + 1) := by
  have hcall : UnitOfWorkMiddleware.call h r =
      (Action.beginTx :: (tr ++ [Action.rollbackTx]), .error e) := by
    simp [UnitOfWorkMiddleware.call, hm, hh]
  have hdrop : ((UnitOfWorkMiddleware.call h r).1).drop (tr.length + 1) =
      [Action.rollbackTx] := by
    rw [hcall]
    simp
  refine ⟨hcall, hdrop, ?_⟩
  rw [hdrop]
  decide

/-- C2, witness: updating an id absent from the store raises `ValueError`
from the repository; the middleware rolls back and re-raises. -/
theorem c2_exception_rolls_back_witness :
    UnitOfWorkMiddleware.call (updateHandler [] "missing" updREQ "u1" 0) reqPUT =
      (Action.beginTx :: ([Action.repoCall "find"] ++ [Action.rollbackTx]),
        .error (.valueError "Example missing not found")) ∧
    ((UnitOfWorkMiddleware.call (updateHandler [] "missing" updREQ "u1" 0) reqPUT).1).drop
        ([Action.repoCall "find"].length + 1) = [Action.rollbackTx] ∧
    Action.commitTx ∉
      ((UnitOfWorkMiddleware.call (updateHandler [] "missing" updREQ "u1" 0) reqPUT).1).drop
        ([Action.repoCall "find"].length + 1) :=
  c2_exception_rolls_back (updateHandler [] "missing" updREQ "u1" 0) reqPUT
    [Action.repoCall "find"] (.valueError "Example missing not found")
    (by decide) (by decide)

/-- C3: `to_model_from_request` is not total on well-formed requests — it
returns a model for no input at all, because it calls the create factory
with an empty owner id and `ExampleModel.validate` then raises the
`ValueError` requiring an owner. The sample request `widgetREQ` passes edge
validation yet the mapper raises. -/
theorem c3_to_model_from_request_never_returns :
    (∀ (p_gid : String) (p_now : Nat) (r : CreateExampleRequest),
      (ExampleMapper.to_model_from_request p_gid p_now r).isOk = false) ∧
    CreateExampleRequest.validate widgetREQ = .ok () ∧
    ExampleMapper.to_model_from_request "gid-1" 0 widgetREQ =
      .error (.valueError "Example must have an owner") := by
  refine ⟨?_, by decide, by decide⟩
  intro p_gid p_now r
  unfold ExampleMapper.to_model_from_request ExampleModel.create
  dsimp only
  split
  case h_1 u heq =>
    exfalso
    unfold ExampleModel.validate at heq
    split at heq
    · exact Except.noConfusion heq
    · split at heq
      · exact Except.noConfusion heq
      · split at heq
        · exact Except.noConfusion heq
        · split at heq
          · exact Except.noConfusion heq
          · rename_i hov
            refine hov ?_
            show isBlank "" = true
            decide
  case h_2 e heq => rfl

/-- C4: the executed body of `OwnershipMiddleware.__call__` never produces a
forbidden outcome — for every request, mutating or not, it invokes the next
stage and returns its result unchanged (the extraction and verification
statements are commented out in the source), so a mutating request by a
non-owner reaches the handler instead of being rejected. -/
theorem c4_ownership_check_absent :
    (∀ (h : Handler) (r : HttpRequest), OwnershipMiddleware.call h r = h r) ∧
    OwnershipMiddleware.call (fun _ => ([], .ok { status_code := 200 })) reqPOST =
      ([], .ok { status_code := 200 }) := by
  constructor
  · intro h r
    unfold OwnershipMiddleware.call
    split <;> rfl
  · rfl

/-- C5, counterexample: entity `e1` is stored with version 5; updating it
through the repository stores the entity produced by `to_write_entity`,
whose version is the constructor default 0 — the stored version after the
write is not strictly greater than the stored version before it. -/
theorem c5_version_not_incremented_cex :
    storeGet storeV5 "e1" = some entV5 ∧ entV5.version = 5 ∧
    ExampleCommandRepository.update_async storeV5 m5 =
      .ok [("e1", ExampleMapper.to_write_entity m5)] ∧
    (ExampleMapper.to_write_entity m5).version = 0 ∧
    ¬ ((ExampleMapper.to_write_entity m5).version > entV5.version) := by decide

/-- C5, amended: the write path never increments the version counter —
`to_write_entity` always emits version 0, so after every successful update
the entity stored under the model's id has version 0 (the counter is
constant, not monotonically increasing). -/
theorem c5_version_constant_zero (s s' : WriteStore) (m : ExampleModel)
    (h : ExampleCommandRepository.update_async s m = .ok s') :
    storeGet s' m.id = some (ExampleMapper.to_write_entity m) ∧
    (ExampleMapper.to_write_entity m).version = 0 := by
  refine ⟨?_, rfl⟩
  unfold ExampleCommandRepository.update_async at h
  dsimp only at h
  split at h
  · injection h with h'
    rw [← h']
    exact storeGet_storeSet_self s (ExampleMapper.to_write_entity m).id
      (ExampleMapper.to_write_entity m)
  · exact Except.noConfusion h

/-- C5, witness: the version-5 store updated with `m5`. -/
theorem c5_version_constant_zero_witness :
    storeGet [("e1", ExampleMapper.to_write_entity m5)] m5.id =
      some (ExampleMapper.to_write_entity m5) ∧
    (ExampleMapper.to_write_entity m5).version = 0 :=
  c5_version_constant_zero storeV5 [("e1", ExampleMapper.to_write_entity m5)] m5 (by decide)

/-- C6, counterexample: `hydrate` performs no validation, so a model
hydrated from a write projection with an empty name exists but fails the
model's validate predicate — not every existing BMO has passed validation. -/
theorem c6_hydrate_skips_validation_cex :
    ExampleModel.validate (ExampleModel.hydrate "id1" "" "d" "u1" true 0 0) =
      .error (.valueError "Example name cannot be empty") := by decide

/-- C6, amended: models returned by the create factory and models returned
by `update_details` satisfy the validate predicate (both construct the new
state and call `validate` before returning); models produced by `hydrate`
carry the projection's fields verbatim and need not satisfy it. -/
theorem c6_validation_at_construction (p_gid : String) (p_now p_now' : Nat)
    (n d o n' d' : String) (m m0 m' : ExampleModel)
    (h1 : ExampleModel.create p_gid p_now n d o = .ok m)
    (h2 : ExampleModel.update_details m0 n' d' p_now' = .ok m') :
    m.validate = .ok () ∧ m'.validate = .ok () := by
  constructor
  · unfold ExampleModel.create at h1
    dsimp only at h1
    split at h1
    · injection h1 with h1'
      rename_i u heq
      rw [← h1', heq]
    · exact Except.noConfusion h1
  · unfold ExampleModel.update_details at h2
    split at h2
    · exact Except.noConfusion h2
    · dsimp only at h2
      split at h2
      · injection h2 with h2'
        rename_i u heq
        rw [← h2', heq]
      · exact Except.noConfusion h2

/-- C6, witness: a concrete successful create and a concrete successful
`update_details`, both yielding validated models. -/
theorem c6_validation_at_construction_witness :
    mA.validate = .ok () ∧ mB.validate = .ok () :=
  c6_validation_at_construction "g1" 0 1 "Widget" "d" "u1" "W2" "d2" mA mA mB
    (by decide) (by decide)

/-- C7: for an identity absent from the store, `find_by_id_for_command`,
`update` and `delete` raise the untyped `ValueError` rather than the typed
not-found exception; running the update use case through the pipeline
normalizes that into the generic `INTERNAL_ERROR` response, which the status
mapping sends to 500 — whereas the typed `NOT_FOUND` code the claim expects
would map to 404. -/
theorem c7_absent_id_not_typed :
    ExampleCommandRepository.find_by_id_for_command_async [] "missing" =
      .error (.valueError "Example missing not found") ∧
    ExampleCommandRepository.delete_async [] "missing" =
      .error (.valueError "Example missing not found") ∧
    ExampleCommandRepository.update_async [] mMissing =
      .error (.valueError "Example missing not found") ∧
    (pipelineUpdate [] "missing" updREQ "u1" 0 reqPUT).2 =
      .failure { code := "INTERNAL_ERROR" } ∧
    ErrorHandlingMiddleware.map_error_code_to_status "INTERNAL_ERROR" = 500 ∧
    ErrorHandlingMiddleware.map_error_code_to_status ExampleErrorCode.NOT_FOUND.value = 404 := by
  refine ⟨by decide, by decide, by decide, by decide, by decide, by decide⟩

/-- C8: mapping a write projection to a BMO and back yields a projection
equal to the original on id, name, description, owner_id, is_active,
created_at and updated_at; the version counter — owned by the write side —
is reset to the constructor default 0 instead of being copied. -/
theorem c8_write_roundtrip (e : ExampleWriteEntity) :
    (ExampleMapper.to_write_entity (ExampleMapper.to_model_from_write_entity e)).id = e.id ∧
    (ExampleMapper.to_write_entity (ExampleMapper.to_model_from_write_entity e)).name = e.name ∧
    (ExampleMapper.to_write_entity (ExampleMapper.to_model_from_write_entity e)).description =
      e.description ∧
    (ExampleMapper.to_write_entity (ExampleMapper.to_model_from_write_entity e)).owner_id =
      e.owner_id ∧
    (ExampleMapper.to_write_entity (ExampleMapper.to_model_from_write_entity e)).is_active =
      e.is_active ∧
    (ExampleMapper.to_write_entity (ExampleMapper.to_model_from_write_entity e)).created_at =
      e.created_at ∧
    (ExampleMapper.to_write_entity (ExampleMapper.to_model_from_write_entity e)).updated_at =
      e.updated_at ∧
    (ExampleMapper.to_write_entity (ExampleMapper.to_model_from_write_entity e)).version = 0 :=
  ⟨rfl, rfl, rfl, rfl, rfl, rfl, rfl, rfl⟩

/-- C9: `list_by_filter` returns at most `take` items; the item at offset
`i` of the result is the item at offset `skip + i` of the full stably
ordered store; and a `skip` at or beyond the store size yields the empty
sequence. -/
theorem c9_pagination (store : List ExampleReadEntity) (p_skip p_take : Nat) :
    (ExampleQueryRepository.list_by_filter_async store p_skip p_take).length ≤ p_take ∧
    (∀ i : Nat, i < (ExampleQueryRepository.list_by_filter_async store p_skip p_take).length →
      (ExampleQueryRepository.list_by_filter_async store p_skip p_take)[i]? =
        store[p_skip + i]?) ∧
    (store.length ≤ p_skip →
      ExampleQueryRepository.list_by_filter_async store p_skip p_take = []) := by
  refine ⟨?_, ?_, ?_⟩
  · simp [ExampleQueryRepository.list_by_filter_async, List.length_take]
  · intro i hi
    unfold ExampleQueryRepository.list_by_filter_async at hi ⊢
    have hit : i < p_take := by
      have := hi
      rw [List.length_take] at this
      exact lt_of_lt_of_le this (min_le_left _ _)
    rw [List.getElem?_take_of_lt hit, List.getElem?_drop]
  · intro hle
    simp [ExampleQueryRepository.list_by_filter_async, List.drop_eq_nil_of_le hle]

/-- C9, witness: a three-entity store, skip 1 take 1 for the slice facts,
and skip 5 for the empty-result fact. -/
theorem c9_pagination_witness :
    (ExampleQueryRepository.list_by_filter_async readStore3 1 1).length ≤ 1 ∧
    (ExampleQueryRepository.list_by_filter_async readStore3 1 1)[0]? = readStore3[1 + 0]? ∧
    ExampleQueryRepository.list_by_filter_async readStore3 5 1 = [] :=
  ⟨(c9_pagination readStore3 1 1).1,
   (c9_pagination readStore3 1 1).2.1 0 (by decide),
   (c9_pagination readStore3 5 1).2.2 (by decide)⟩

/-- C10: saving a model stores the mapped entity under the model's own id
and returns that id; immediately afterwards `exists_async` is true and
`find_by_id_for_command_async` returns a model equal to the saved one — in
particular equal on id, name, description, owner_id, is_active, created_at
and updated_at. -/
theorem c10_save_then_find (s : WriteStore) (m : ExampleModel) :
    (ExampleCommandRepository.save_async s m).1 = m.id ∧
    ExampleCommandRepository.exists_async (ExampleCommandRepository.save_async s m).2 m.id =
      true ∧
    ExampleCommandRepository.find_by_id_for_command_async
      (ExampleCommandRepository.save_async s m).2 m.id = .ok m := by
  refine ⟨rfl, ?_, ?_⟩
  · unfold ExampleCommandRepository.exists_async storeContains
      ExampleCommandRepository.save_async
    rw [show m.id = (ExampleMapper.to_write_entity m).id from rfl,
      storeGet_storeSet_self]
    rfl
  · unfold ExampleCommandRepository.find_by_id_for_command_async
      ExampleCommandRepository.save_async
    rw [show m.id = (ExampleMapper.to_write_entity m).id from rfl,
      storeGet_storeSet_self]
    rfl

end OddlyDDD
